import Mathlib

/-!
Shallow embedding of `src/databricks/sqlalchemy/_service_principal.py`:
the `ServicePrincipalCredentialsProvider` OAuth client-credentials flow
(hostname normalization, construction-time endpoint discovery, and the
lock-guarded token cache with expiry-margin refresh).

Modelling conventions:
- The wall clock (Python `time.time()`) is an explicit integer-timestamp
  parameter `now : Int`; each provider call is modelled at one clock instant.
- HTTP exchanges are modelled by oracle structures describing the response
  the network would deliver: `raise_for_status` success is a Bool, and the
  relevant JSON body fields are `Option` fields.
- `requests.post` / `requests.get` calls are counted explicitly so that
  "no fetch performed" claims are statements about a returned counter.
- Python string methods used by the source (`startswith`, slicing,
  `rstrip("/")`, `int(...)` conversion) are implemented over `String.data`
  character lists so that every definition kernel-evaluates on literals.
- Mutation of `self._access_token` / `self._expires_at` is explicit state
  passing on `ProviderState`; in the source, `_refresh_token` raises only
  before its assignments (lines 118-134 precede lines 142-143), so an
  errored refresh leaves the state it was entered with.
-/

namespace DatabricksServicePrincipal

/-- `charsPrefix p s` : the character list `p` is a prefix of `s`
(kernel-evaluating model of Python `str.startswith`). -/
def charsPrefix : List Char → List Char → Bool
  | [], _ => true
  | _ :: _, [] => false
  | p :: ps, s :: ss => decide (p = s) && charsPrefix ps ss

/-- Python `s.startswith(p)`. -/
def strStartsWith (s p : String) : Bool :=
  charsPrefix p.data s.data

/-- Python slicing `s[n:]`. -/
def strDrop (s : String) (n : Nat) : String :=
  String.mk (s.data.drop n)

/-- Drop the trailing run of `'/'` characters from a character list. -/
def rstripSlashesList (l : List Char) : List Char :=
  (l.reverse.dropWhile (· = '/')).reverse

/-- Python `s.rstrip("/")`. -/
def rstripSlashes (s : String) : String :=
  String.mk (rstripSlashesList s.data)

/-- Embedding of `_normalize_hostname` (lines 18-23): prepend `https://`
unless already present, then strip trailing slashes. -/
def _normalize_hostname (hostname : String) : String :=
  let maybe_scheme := if strStartsWith hostname "https://" then "" else "https://"
  let trimmed :=
    if strStartsWith hostname "https://" then strDrop hostname ("https://".length)
    else hostname
  rstripSlashes (maybe_scheme ++ trimmed)

/-- Value of one ASCII digit character, `none` on a non-digit. -/
def charDigit? (c : Char) : Option Nat :=
  if c = '0' then some 0 else if c = '1' then some 1 else if c = '2' then some 2
  else if c = '3' then some 3 else if c = '4' then some 4 else if c = '5' then some 5
  else if c = '6' then some 6 else if c = '7' then some 7 else if c = '8' then some 8
  else if c = '9' then some 9 else none

/-- Parse a nonempty all-digit character list as a natural number. -/
def digitsToNat? : List Char → Option Nat
  | [] => none
  | [c] => charDigit? c
  | c :: rest =>
    match charDigit? c, digitsToNat? rest with
    | some d, some n => some (d * 10 ^ rest.length + n)
    | _, _ => none

/-- Whitespace recognizer for Python `int(str)`'s surrounding-space stripping. -/
def pyIsSpace (c : Char) : Bool :=
  decide (c = ' ') || decide (c = '\t') || decide (c = '\n') || decide (c = '\r')

/-- Model of Python `int(s)` for a string argument: strip surrounding
whitespace, optional sign, then decimal digits; `none` models
`ValueError`. -/
def pyStrToInt? (s : String) : Option Int :=
  let t := (s.data.dropWhile pyIsSpace).reverse.dropWhile pyIsSpace |>.reverse
  let (neg, core) :=
    match t with
    | '-' :: rest => (true, rest)
    | '+' :: rest => (false, rest)
    | _ => (false, t)
  match digitsToNat? core with
  | none => none
  | some n => some (if neg then -(n : Int) else (n : Int))

/-- JSON-ish value for the `expires_in` field of a token response. -/
inductive JValue where
  | jnum (n : Int)
  | jstr (s : String)
  | jbool (b : Bool)
  | jnull
deriving DecidableEq

/-- Model of Python `int(raw)` on a JSON-decoded value: `none` models the
`(TypeError, ValueError)` branch of lines 137-140. -/
def pyToInt? : JValue → Option Int
  | .jnum n => some n
  | .jstr s => pyStrToInt? s
  | .jbool b => some (if b then 1 else 0)
  | .jnull => none

/-- Lines 136-140: `parsed.get("expires_in", 3600)` followed by
`int(...)` with fallback `3600` on conversion failure. -/
def parse_expires_in (raw? : Option JValue) : Int :=
  match raw? with
  | none => 3600
  | some raw => (pyToInt? raw).getD 3600

/-- The mutable token cache of a provider instance:
`self._access_token` and `self._expires_at` (lines 63-64). -/
structure ProviderState where
  access_token : Option String
  expires_at : Int
deriving DecidableEq

/-- The cache as constructed at `__init__` time: no token, expiry `0`. -/
def initialState : ProviderState :=
  { access_token := none, expires_at := 0 }

/-- Python truthiness of `self._access_token`: `None` and `""` are falsy. -/
def py_truthy : Option String → Bool
  | none => false
  | some s => !s.isEmpty

/-- Embedding of `_needs_refresh` (lines 96-100). -/
def _needs_refresh (margin : Int) (now : Int) (st : ProviderState) : Bool :=
  if !py_truthy st.access_token then true
  else decide (now ≥ st.expires_at - margin)

/-- The immutable configuration a constructed provider instance holds. -/
structure Provider where
  hostname : String
  client_id : String
  client_secret : String
  scopes : List String
  refresh_margin : Int
  token_endpoint : String

/-- Response the network delivers to the token-endpoint POST:
`ok = false` models a `raise_for_status` failure, `access_token = none`
models a body without the `access_token` key. -/
structure HttpTokenResponse where
  ok : Bool
  access_token : Option String
  expires_in : Option JValue

/-- The form payload and target URL of the token-endpoint POST
(lines 111-120). -/
structure TokenRequest where
  url : String
  grant_type : String
  client_id : String
  client_secret : String
  scope : String
deriving DecidableEq

/-- Failure modes raised as `ServicePrincipalAuthenticationError`. -/
inductive AuthErr where
  | tokenRequestFailed
  | missingAccessToken
  | configLoadFailed
  | missingTokenEndpoint
deriving DecidableEq

/-- Embedding of `_refresh_token` (lines 109-143). The POST request is
issued before any raise point, so it is always part of the result; the
state component is `Except.error` exactly on the raise paths, which in
the source all occur before the assignments of lines 142-143. -/
def _refresh_token (p : Provider) (resp : HttpTokenResponse) (now : Int) :
    TokenRequest × Except AuthErr ProviderState :=
  let req : TokenRequest :=
    { url := p.token_endpoint
      grant_type := "client_credentials"
      client_id := p.client_id
      client_secret := p.client_secret
      scope := String.intercalate " " p.scopes }
  if !resp.ok then (req, .error .tokenRequestFailed)
  else
    match resp.access_token with
    | none => (req, .error .missingAccessToken)
    | some tok =>
      let expires_in := parse_expires_in resp.expires_in
      (req, .ok { access_token := some tok
                  expires_at := now + max expires_in (p.refresh_margin + 1) })

/-- Failure modes observable from `_get_token`: a propagated
authentication error, or the `assert self._access_token` of line 106. -/
inductive GetErr where
  | auth (e : AuthErr)
  | assertionError
deriving DecidableEq

/-- Embedding of `_get_token` (lines 102-107), with the state threaded
explicitly and the number of token-endpoint POSTs issued returned as the
last component. On a raised refresh error the cache is the one the call
was entered with; on an assertion failure after a refresh that stored a
falsy token, the mutated cache is kept (the source mutates at lines
142-143 before the assert at line 106). -/
def _get_token (p : Provider) (resp : HttpTokenResponse) (now : Int)
    (st : ProviderState) : Except GetErr String × ProviderState × Nat :=
  if _needs_refresh p.refresh_margin now st then
    match (_refresh_token p resp now).2 with
    | .error e => (.error (.auth e), st, 1)
    | .ok st' =>
      match st'.access_token with
      | some tok =>
        if tok.isEmpty then (.error .assertionError, st', 1)
        else (.ok tok, st', 1)
      | none => (.error .assertionError, st', 1)
  else
    match st.access_token with
    | some tok =>
      if tok.isEmpty then (.error .assertionError, st, 0)
      else (.ok tok, st, 0)
    | none => (.error .assertionError, st, 0)

/-- Embedding of the `header_factory` closure returned by `__call__`
(lines 71-76): build the `Authorization` header mapping from the token. -/
def header_factory (p : Provider) (resp : HttpTokenResponse) (now : Int)
    (st : ProviderState) :
    Except GetErr (List (String × String)) × ProviderState × Nat :=
  match _get_token p resp now st with
  | (.ok tok, st', n) => (.ok [("Authorization", "Bearer " ++ tok)], st', n)
  | (.error e, st', n) => (.error e, st', n)

/-- Run `_get_token` once per clock value in `ts`, from left to right,
accumulating the number of token-endpoint POSTs issued. -/
def run_reads (p : Provider) (resp : HttpTokenResponse) :
    List Int → ProviderState → ProviderState × Nat
  | [], st => (st, 0)
  | t :: ts, st =>
    let r := _get_token p resp t st
    let rest := run_reads p resp ts r.2.1
    (rest.1, r.2.2 + rest.2)

/-- Result of `get_oauth_endpoints` for the normalized hostname: the
OpenID-configuration URL builder and the scope mapper the endpoints
object provides (external collaborators of the source). -/
structure OAuthEndpointsModel where
  openid_config_url : String → String
  scopes_mapping : List String → List String

/-- Response the network delivers to the OpenID-configuration GET:
`ok = false` models a request error or `raise_for_status` failure,
`token_endpoint = none` a body without the `token_endpoint` key. -/
structure HttpGetResponse where
  ok : Bool
  token_endpoint : Option String

/-- Embedding of `_discover_token_endpoint` (lines 78-94): the first
component is the URL the single GET is issued to, the second the raised
error or the resolved token endpoint. A falsy (empty) `token_endpoint`
value is rejected like a missing one (`if not token_endpoint`). -/
def _discover_token_endpoint (hostname : String) (ep : OAuthEndpointsModel)
    (resp : HttpGetResponse) : String × Except AuthErr String :=
  let url := ep.openid_config_url hostname
  if !resp.ok then (url, .error .configLoadFailed)
  else
    match resp.token_endpoint with
    | none => (url, .error .missingTokenEndpoint)
    | some te =>
      if te.isEmpty then (url, .error .missingTokenEndpoint)
      else (url, .ok te)

/-- Line 29: `DEFAULT_SCOPES = ("sql",)`. -/
def DEFAULT_SCOPES : List String := ["sql"]

/-- What line 55 may receive for the `scopes : Optional[Iterable[str]]`
argument: `None`, a sequence (list or tuple, falsy exactly when empty),
or an iterator/generator yielding the given elements — an iterator is
truthy even when it will yield nothing, since it defines neither a
boolean conversion nor a length. -/
inductive ScopesArg where
  | noneArg
  | listArg (l : List String)
  | iterArg (l : List String)
deriving DecidableEq

/-- Python truthiness of the `scopes` argument in `if scopes` (line 55). -/
def scopes_truthy : ScopesArg → Bool
  | .noneArg => false
  | .listArg l => !l.isEmpty
  | .iterArg _ => true

/-- Python `tuple(scopes)`, modelled as the list of yielded elements. -/
def scopes_tuple : ScopesArg → List String
  | .noneArg => []
  | .listArg l => l
  | .iterArg l => l

/-- Faithful embedding of line 55 over iterable inputs:
`tuple(scopes) if scopes else self.DEFAULT_SCOPES`. -/
def scope_tuple_of_arg (s : ScopesArg) : List String :=
  if scopes_truthy s then scopes_tuple s else DEFAULT_SCOPES

/-- Line 55 restricted to `None`-or-sequence inputs, the domain over
which the constructor embedding `sp_init` is stated; it agrees with
`scope_tuple_of_arg` on `.noneArg` and `.listArg` inputs but leaves out
iterator inputs, whose truthiness diverges from emptiness. -/
def effective_scopes (scopes : Option (List String)) : List String :=
  match scopes with
  | none => DEFAULT_SCOPES
  | some l => if l.isEmpty then DEFAULT_SCOPES else l

/-- Constructor failure modes: `ServicePrincipalConfigurationError` or a
propagated `ServicePrincipalAuthenticationError` from discovery. -/
inductive InitError where
  | configuration
  | authentication (e : AuthErr)
deriving DecidableEq

/-- The environment `__init__` interacts with: the `get_oauth_endpoints`
lookup and the response to the one OpenID-configuration GET. -/
structure InitEnv where
  get_oauth_endpoints : String → Option OAuthEndpointsModel
  discovery_response : HttpGetResponse

/-- Embedding of `__init__` (lines 31-66): validation, hostname
normalization, endpoint lookup, scope mapping and token-endpoint
discovery. The second component counts HTTP GET requests issued. -/
def sp_init (server_hostname client_id client_secret : String)
    (scopes : Option (List String)) (refresh_margin : Int) (env : InitEnv) :
    Except InitError Provider × Nat :=
  if server_hostname.isEmpty then (.error .configuration, 0)
  else if client_id.isEmpty then (.error .configuration, 0)
  else if client_secret.isEmpty then (.error .configuration, 0)
  else
    let hostname := _normalize_hostname server_hostname
    match env.get_oauth_endpoints hostname with
    | none => (.error .configuration, 0)
    | some ep =>
      let scope_tuple := effective_scopes scopes
      let mapped := ep.scopes_mapping scope_tuple
      match (_discover_token_endpoint hostname ep env.discovery_response).2 with
      | .error e => (.error (.authentication e), 1)
      | .ok te =>
        (.ok { hostname := hostname
               client_id := client_id
               client_secret := client_secret
               scopes := mapped
               refresh_margin := refresh_margin
               token_endpoint := te }, 1)

/-! Concrete sample values used to instantiate proved theorems. -/

/-- A constructed provider with refresh margin 0 (the configuration of the
spec's two-token scenario). -/
def sampleProvider : Provider :=
  { hostname := "https://dbc.cloud.databricks.com"
    client_id := "client-id"
    client_secret := "secret"
    scopes := ["sql"]
    refresh_margin := 0
    token_endpoint := "https://dbc.cloud.databricks.com/oidc/oauth2/v2.0/token" }

/-- First token response of the two-token scenario. -/
def tokenResponse1 : HttpTokenResponse :=
  { ok := true, access_token := some "t1", expires_in := some (.jnum 5) }

/-- Second token response of the two-token scenario. -/
def tokenResponse2 : HttpTokenResponse :=
  { ok := true, access_token := some "t2", expires_in := some (.jnum 5) }

/-- A token response whose POST failed `raise_for_status`. -/
def failedTokenResponse : HttpTokenResponse :=
  { ok := false, access_token := none, expires_in := none }

/-- A successful token response with a non-numeric `expires_in`. -/
def badExpiryTokenResponse : HttpTokenResponse :=
  { ok := true, access_token := some "t3", expires_in := some (.jstr "soon") }

/-- A cache holding the non-expired token `t0`. -/
def sampleValidState : ProviderState :=
  { access_token := some "t0", expires_at := 10 }

/-! Helper lemmas about `_get_token` and `run_reads`. -/

/-- A read on a valid cache (truthy token, clock strictly before
expiry minus margin) returns the cached token, leaves the cache alone and
issues no POST. -/
lemma get_token_of_valid (p : Provider) (resp : HttpTokenResponse) (now : Int)
    (st : ProviderState) (tok : String) (ht : st.access_token = some tok)
    (hne : tok.isEmpty = false) (hlt : now < st.expires_at - p.refresh_margin) :
    _get_token p resp now st = (.ok tok, st, 0) := by
  have hnr : _needs_refresh p.refresh_margin now st = false := by
    simp [_needs_refresh, py_truthy, ht, hne]
    omega
  simp [_get_token, hnr, ht, hne]

/-- A successful `_get_token` leaves the cache holding exactly the
returned token, which is nonempty. -/
lemma get_token_ok_shape (p : Provider) (resp : HttpTokenResponse) (now : Int)
    (st : ProviderState) (tok : String) (st' : ProviderState) (n : Nat)
    (h : _get_token p resp now st = (.ok tok, st', n)) :
    st'.access_token = some tok ∧ tok.isEmpty = false := by
  unfold _get_token at h
  split at h
  · split at h
    · simp_all
    · split at h
      · split at h <;> simp_all
      · simp_all
  · split at h
    · split at h <;> simp_all
    · simp_all

/-- Reads whose clock values all lie strictly inside the validity window
of a cache holding a nonempty token neither change the cache nor issue
any POST. -/
lemma run_reads_within_window (p : Provider) (resp : HttpTokenResponse)
    (ts : List Int) :
    ∀ st : ProviderState, ∀ tok : String, st.access_token = some tok →
      tok.isEmpty = false →
      (∀ t ∈ ts, t < st.expires_at - p.refresh_margin) →
      run_reads p resp ts st = (st, 0) := by
  induction ts with
  | nil => intro st tok _ _ _; simp [run_reads]
  | cons t ts ih =>
    intro st tok ht hne hts
    have h1 : _get_token p resp t st = (.ok tok, st, 0) :=
      get_token_of_valid p resp t st tok ht hne (hts t (List.mem_cons_self t ts))
    have h2 : run_reads p resp ts st = (st, 0) :=
      ih st tok ht hne (fun u hu => hts u (List.mem_cons_of_mem t hu))
    simp [run_reads, h1, h2]

/-- C2: a successful refresh with parsed `expires_in` value `e`, margin
`m` and storing clock `now` stores expiry `now + max e (m + 1)`, and the
freshly stored cache satisfies `now < expiry - margin` for every integer
margin. -/
theorem refresh_success_expiry (p : Provider) (resp : HttpTokenResponse)
    (now : Int) (st' : ProviderState)
    (h : (_refresh_token p resp now).2 = .ok st') :
    st'.expires_at =
      now + max (parse_expires_in resp.expires_in) (p.refresh_margin + 1) ∧
    now < st'.expires_at - p.refresh_margin := by
  cases hok : resp.ok with
  | false => simp [_refresh_token, hok] at h
  | true =>
    cases hacc : resp.access_token with
    | none => simp [_refresh_token, hok, hacc] at h
    | some tok =>
      simp [_refresh_token, hok, hacc] at h
      have hmax : p.refresh_margin + 1 ≤
          max (parse_expires_in resp.expires_in) (p.refresh_margin + 1) :=
        le_max_right _ _
      rw [← h]
      constructor
      · rfl
      · simp only []
        omega

/-- Witness for C2 at the first response of the two-token scenario. -/
theorem refresh_success_expiry_witness :
    ({ access_token := some "t1", expires_at := 5 } : ProviderState).expires_at =
      0 + max (parse_expires_in tokenResponse1.expires_in)
        (sampleProvider.refresh_margin + 1) ∧
    (0 : Int) <
      ({ access_token := some "t1", expires_at := 5 } : ProviderState).expires_at -
        sampleProvider.refresh_margin :=
  refresh_success_expiry sampleProvider tokenResponse1 0
    { access_token := some "t1", expires_at := 5 } rfl

/-- C3: a refresh attempt whose POST fails `raise_for_status` or whose
body lacks the `access_token` field raises an authentication error, and
a `_get_token` call hitting such a refresh returns with the cached token
and cached expiry exactly as they were. -/
theorem failed_refresh_leaves_cache_unchanged (p : Provider)
    (resp : HttpTokenResponse) (now : Int) (st : ProviderState)
    (h : resp.ok = false ∨ resp.access_token = none) :
    (∃ e, (_refresh_token p resp now).2 = .error e) ∧
    (_needs_refresh p.refresh_margin now st = true →
      ∃ e, _get_token p resp now st = (.error (.auth e), st, 1)) := by
  have herr : ∃ e, (_refresh_token p resp now).2 = .error e := by
    rcases h with h | h
    · exact ⟨.tokenRequestFailed, by simp [_refresh_token, h]⟩
    · cases hok : resp.ok with
      | false => exact ⟨.tokenRequestFailed, by simp [_refresh_token, hok]⟩
      | true => exact ⟨.missingAccessToken, by simp [_refresh_token, hok, h]⟩
  refine ⟨herr, fun hnr => ?_⟩
  rcases herr with ⟨e, he⟩
  exact ⟨e, by simp [_get_token, hnr, he]⟩

/-- Witness for C3: a failed POST at time 0 on the empty initial cache. -/
theorem failed_refresh_leaves_cache_unchanged_witness :
    (∃ e, (_refresh_token sampleProvider failedTokenResponse 0).2 = .error e) ∧
    (∃ e, _get_token sampleProvider failedTokenResponse 0 initialState =
      (.error (.auth e), initialState, 1)) :=
  ⟨(failed_refresh_leaves_cache_unchanged sampleProvider failedTokenResponse 0
      initialState (Or.inl rfl)).1,
   (failed_refresh_leaves_cache_unchanged sampleProvider failedTokenResponse 0
      initialState (Or.inl rfl)).2 rfl⟩

/-- C5: when `expires_in` is absent, or present but not convertible to an
integer, it parses to the default 3600, and a successful refresh stores
expiry `now + max 3600 (margin + 1)`. -/
theorem expires_in_default_3600 (p : Provider) (resp : HttpTokenResponse)
    (now : Int)
    (h : resp.expires_in = none ∨
      ∃ raw, resp.expires_in = some raw ∧ pyToInt? raw = none) :
    parse_expires_in resp.expires_in = 3600 ∧
    ∀ st', (_refresh_token p resp now).2 = .ok st' →
      st'.expires_at = now + max 3600 (p.refresh_margin + 1) := by
  have hparse : parse_expires_in resp.expires_in = 3600 := by
    rcases h with h | ⟨raw, hraw, hconv⟩
    · simp [parse_expires_in, h]
    · simp [parse_expires_in, hraw, hconv]
  refine ⟨hparse, fun st' hok => ?_⟩
  have := (refresh_success_expiry p resp now st' hok).1
  rw [this, hparse]

/-- Witness for C5 at a response whose `expires_in` is the non-numeric
string `"soon"`. -/
theorem expires_in_default_3600_witness :
    parse_expires_in badExpiryTokenResponse.expires_in = 3600 ∧
    ({ access_token := some "t3", expires_at := 3600 } : ProviderState).expires_at =
      0 + max 3600 (sampleProvider.refresh_margin + 1) :=
  ⟨(expires_in_default_3600 sampleProvider badExpiryTokenResponse 0
      (Or.inr ⟨.jstr "soon", rfl, by decide⟩)).1,
   (expires_in_default_3600 sampleProvider badExpiryTokenResponse 0
      (Or.inr ⟨.jstr "soon", rfl, by decide⟩)).2
     { access_token := some "t3", expires_at := 3600 } rfl⟩

/-- C1: a read with a cached (truthy) token and clock strictly before
expiry minus margin returns the cached token with no POST and an
unchanged cache; a read outside that window (token falsy, or clock at or
past expiry minus margin) issues exactly one POST; and after any
successful read, every further read whose clock lies strictly inside the
validity window of the resulting cache issues no POST, so at most one
refresh occurs per validity window. -/
theorem token_read_refresh_policy (p : Provider) (resp : HttpTokenResponse)
    (now : Int) (st : ProviderState) :
    (py_truthy st.access_token = true →
      now < st.expires_at - p.refresh_margin →
      ∃ tok, st.access_token = some tok ∧
        _get_token p resp now st = (.ok tok, st, 0)) ∧
    ((py_truthy st.access_token = false ∨ st.expires_at - p.refresh_margin ≤ now) →
      (_get_token p resp now st).2.2 = 1) ∧
    (∀ tok st' n, _get_token p resp now st = (.ok tok, st', n) →
      ∀ ts : List Int, (∀ t ∈ ts, t < st'.expires_at - p.refresh_margin) →
        run_reads p resp ts st' = (st', 0)) := by
  refine ⟨fun htr hlt => ?_, fun h => ?_, fun tok st' n h ts hts => ?_⟩
  · cases hacc : st.access_token with
    | none => simp [py_truthy, hacc] at htr
    | some tok =>
      have hne : tok.isEmpty = false := by
        simp [py_truthy, hacc] at htr
        simpa [String.isEmpty_iff] using htr
      exact ⟨tok, rfl, get_token_of_valid p resp now st tok hacc hne hlt⟩
  · have hnr : _needs_refresh p.refresh_margin now st = true := by
      rcases h with h | h
      · simp [_needs_refresh, h]
      · simp [_needs_refresh]
        exact Or.inr (by omega)
    unfold _get_token
    rw [hnr]
    simp only [if_true]
    split
    · rfl
    · split
      · split <;> rfl
      · rfl
  · obtain ⟨hacc, hne⟩ := get_token_ok_shape p resp now st tok st' n h
    exact run_reads_within_window p resp ts st' tok hacc hne hts

/-- Witness for C1: a valid-cache read at time 0 returns the cached token
with no POST; an expired read at time 20 issues one POST; the reads at
times 1 and 2 after the successful time-0 read issue no POST. -/
theorem token_read_refresh_policy_witness :
    (∃ tok, sampleValidState.access_token = some tok ∧
      _get_token sampleProvider tokenResponse1 0 sampleValidState =
        (.ok tok, sampleValidState, 0)) ∧
    (_get_token sampleProvider tokenResponse1 20 sampleValidState).2.2 = 1 ∧
    run_reads sampleProvider tokenResponse1 [1, 2] sampleValidState =
      (sampleValidState, 0) :=
  ⟨(token_read_refresh_policy sampleProvider tokenResponse1 0 sampleValidState).1
     (by decide) (by decide),
   (token_read_refresh_policy sampleProvider tokenResponse1 20 sampleValidState).2.1
     (Or.inr (by decide)),
   (token_read_refresh_policy sampleProvider tokenResponse1 0 sampleValidState).2.2
     "t0" sampleValidState 0 rfl [1, 2] (by decide)⟩

/-- C4: with refresh margin 0 and token responses t1/5 then t2/5, the
header factory returns Bearer t1 at time 0 with one fetch, Bearer t1 at
time 2 with no further fetch, and Bearer t2 at time 6 with a second
fetch. -/
theorem two_token_scenario :
    header_factory sampleProvider tokenResponse1 0 initialState =
      (.ok [("Authorization", "Bearer t1")],
        { access_token := some "t1", expires_at := 5 }, 1) ∧
    header_factory sampleProvider tokenResponse2 2
        { access_token := some "t1", expires_at := 5 } =
      (.ok [("Authorization", "Bearer t1")],
        { access_token := some "t1", expires_at := 5 }, 0) ∧
    header_factory sampleProvider tokenResponse2 6
        { access_token := some "t1", expires_at := 5 } =
      (.ok [("Authorization", "Bearer t2")],
        { access_token := some "t2", expires_at := 11 }, 1) :=
  ⟨rfl, rfl, rfl⟩

/-- Sample constructor environment whose endpoint lookup always fails. -/
def noEndpointsEnv : InitEnv :=
  { get_oauth_endpoints := fun _ => none
    discovery_response := { ok := true, token_endpoint := some "te" } }

/-- C6: construction with an empty hostname, client id or client secret
fails with a configuration error and performs no HTTP request, and so
does construction when the OAuth endpoint lookup yields nothing for the
normalized host. -/
theorem constructor_configuration_errors (h cid cs : String)
    (scopes : Option (List String)) (margin : Int) (env : InitEnv) :
    (h.isEmpty = true ∨ cid.isEmpty = true ∨ cs.isEmpty = true →
      sp_init h cid cs scopes margin env = (.error .configuration, 0)) ∧
    (env.get_oauth_endpoints (_normalize_hostname h) = none →
      sp_init h cid cs scopes margin env = (.error .configuration, 0)) := by
  constructor
  · intro hempty
    rcases hempty with he | he | he <;> simp [sp_init, he]
  · intro hnone
    by_cases h1 : h.isEmpty
    · simp [sp_init, h1]
    · by_cases h2 : cid.isEmpty
      · simp [sp_init, h1, h2]
      · by_cases h3 : cs.isEmpty
        · simp [sp_init, h1, h2, h3]
        · simp [sp_init, h1, h2, h3, hnone]

/-- Witness for C6: an empty client id, and an endpoint lookup failure
for a fully supplied configuration. -/
theorem constructor_configuration_errors_witness :
    sp_init "dbc.cloud.databricks.com" "" "secret" none 60 noEndpointsEnv =
      (.error .configuration, 0) ∧
    sp_init "dbc.cloud.databricks.com" "client-id" "secret" none 60 noEndpointsEnv =
      (.error .configuration, 0) :=
  ⟨(constructor_configuration_errors "dbc.cloud.databricks.com" "" "secret"
      none 60 noEndpointsEnv).1 (Or.inr (Or.inl rfl)),
   (constructor_configuration_errors "dbc.cloud.databricks.com" "client-id"
      "secret" none 60 noEndpointsEnv).2 rfl⟩

/-- The token-endpoint POST always carries the client-credentials grant
payload built from the provider's stored configuration, regardless of
the response. -/
lemma refresh_request_fields (p : Provider) (tokResp : HttpTokenResponse)
    (now : Int) :
    (_refresh_token p tokResp now).1 =
      { url := p.token_endpoint
        grant_type := "client_credentials"
        client_id := p.client_id
        client_secret := p.client_secret
        scope := String.intercalate " " p.scopes } := by
  unfold _refresh_token
  split
  · rfl
  · split <;> rfl

/-- Shape of a successful construction: one HTTP GET was issued, the
endpoint lookup succeeded, the discovery GET resolved exactly the stored
token endpoint, and the stored scopes are the mapping of the effective
scope tuple. -/
lemma sp_init_ok_shape (h cid cs : String) (scopes : Option (List String))
    (margin : Int) (env : InitEnv) (p : Provider) (n : Nat)
    (hinit : sp_init h cid cs scopes margin env = (.ok p, n)) :
    n = 1 ∧
    ∃ ep', env.get_oauth_endpoints (_normalize_hostname h) = some ep' ∧
      (_discover_token_endpoint (_normalize_hostname h) ep'
          env.discovery_response).2 = .ok p.token_endpoint ∧
      p.scopes = ep'.scopes_mapping (effective_scopes scopes) := by
  by_cases h1 : h.isEmpty
  · simp [sp_init, h1] at hinit
  · by_cases h2 : cid.isEmpty
    · simp [sp_init, h1, h2] at hinit
    · by_cases h3 : cs.isEmpty
      · simp [sp_init, h1, h2, h3] at hinit
      · cases hep : env.get_oauth_endpoints (_normalize_hostname h) with
        | none => simp [sp_init, h1, h2, h3, hep] at hinit
        | some ep' =>
          cases hdisc : (_discover_token_endpoint (_normalize_hostname h) ep'
              env.discovery_response).2 with
          | error e => simp [sp_init, h1, h2, h3, hep, hdisc] at hinit
          | ok te =>
            simp only [sp_init, h1, h2, h3, hep, hdisc, Bool.false_eq_true,
              if_false, Prod.mk.injEq, Except.ok.injEq] at hinit
            obtain ⟨hp, hn⟩ := hinit
            subst hp
            exact ⟨hn.symm, ep', rfl, hdisc, rfl⟩

/-- C7: discovery issues its single GET to the endpoints object's OpenID
configuration URL; a failed GET or a missing/falsy `token_endpoint`
field raises an authentication error (and a construction hitting this
fails with it after its one GET); a successful construction issued
exactly one GET, stored the endpoint the discovery response resolved,
and every later refresh POSTs to that stored endpoint. -/
theorem token_endpoint_discovery (hostname : String) (ep : OAuthEndpointsModel)
    (resp : HttpGetResponse) (h cid cs : String) (scopes : Option (List String))
    (margin : Int) (env : InitEnv) :
    (_discover_token_endpoint hostname ep resp).1 =
      ep.openid_config_url hostname ∧
    (resp.ok = false →
      (_discover_token_endpoint hostname ep resp).2 = .error .configLoadFailed) ∧
    ((resp.token_endpoint = none ∨ resp.token_endpoint = some "") →
      ∃ e, (_discover_token_endpoint hostname ep resp).2 = .error e) ∧
    (∀ te, resp.ok = true → resp.token_endpoint = some te → te.isEmpty = false →
      (_discover_token_endpoint hostname ep resp).2 = .ok te) ∧
    (h.isEmpty = false → cid.isEmpty = false → cs.isEmpty = false →
      ∀ ep' e, env.get_oauth_endpoints (_normalize_hostname h) = some ep' →
        (_discover_token_endpoint (_normalize_hostname h) ep'
            env.discovery_response).2 = .error e →
        sp_init h cid cs scopes margin env = (.error (.authentication e), 1)) ∧
    (∀ p n, sp_init h cid cs scopes margin env = (.ok p, n) →
      n = 1 ∧
      (∃ ep', env.get_oauth_endpoints (_normalize_hostname h) = some ep' ∧
        (_discover_token_endpoint (_normalize_hostname h) ep'
            env.discovery_response).2 = .ok p.token_endpoint) ∧
      ∀ tokResp now, ((_refresh_token p tokResp now).1).url = p.token_endpoint) := by
  refine ⟨?_, fun hok => ?_, fun hmiss => ?_, fun te hok hte hemp => ?_,
    fun h1 h2 h3 ep' e hep hdisc => ?_, fun p n hinit => ?_⟩
  · unfold _discover_token_endpoint
    split
    · rfl
    · split
      · rfl
      · split <;> rfl
  · simp [_discover_token_endpoint, hok]
  · cases hok : resp.ok with
    | false => exact ⟨.configLoadFailed, by simp [_discover_token_endpoint, hok]⟩
    | true =>
      rcases hmiss with hte | hte
      · exact ⟨.missingTokenEndpoint, by simp [_discover_token_endpoint, hok, hte]⟩
      · have hemp : ("" : String).isEmpty = true := rfl
        exact ⟨.missingTokenEndpoint,
          by simp [_discover_token_endpoint, hok, hte, hemp]⟩
  · simp [_discover_token_endpoint, hok, hte, hemp]
  · simp [sp_init, h1, h2, h3, hep, hdisc]
  · obtain ⟨hn, ep', hep, hdisc, _⟩ :=
      sp_init_ok_shape h cid cs scopes margin env p n hinit
    exact ⟨hn, ⟨ep', hep, hdisc⟩,
      fun tokResp now => by rw [refresh_request_fields]⟩

/-- Endpoints object delivered by the lookup in the sample environments:
the in-house OpenID-configuration URL builder and an identity scope
mapping. -/
def sampleEndpoints : OAuthEndpointsModel :=
  { openid_config_url := fun host => host ++ "/oidc/.well-known/oauth-authorization-server"
    scopes_mapping := fun l => l }

/-- A discovery response resolving the sample token endpoint. -/
def okDiscoveryResponse : HttpGetResponse :=
  { ok := true
    token_endpoint := some "https://dbc.cloud.databricks.com/oidc/oauth2/v2.0/token" }

/-- Constructor environment on which construction fully succeeds. -/
def okEnv : InitEnv :=
  { get_oauth_endpoints := fun _ => some sampleEndpoints
    discovery_response := okDiscoveryResponse }

/-- Constructor environment whose discovery GET fails. -/
def failedDiscoveryEnv : InitEnv :=
  { get_oauth_endpoints := fun _ => some sampleEndpoints
    discovery_response := { ok := false, token_endpoint := none } }

/-- Witness for C7: the discovery GET URL, a successful resolution, a
construction failing with an authentication error after its one GET, and
a refresh POSTing to the stored endpoint. -/
theorem token_endpoint_discovery_witness :
    (_discover_token_endpoint "https://dbc.cloud.databricks.com" sampleEndpoints
        okDiscoveryResponse).1 =
      sampleEndpoints.openid_config_url "https://dbc.cloud.databricks.com" ∧
    (_discover_token_endpoint "https://dbc.cloud.databricks.com" sampleEndpoints
        okDiscoveryResponse).2 =
      .ok "https://dbc.cloud.databricks.com/oidc/oauth2/v2.0/token" ∧
    sp_init "dbc.cloud.databricks.com" "client-id" "secret" none 0
        failedDiscoveryEnv =
      (.error (.authentication .configLoadFailed), 1) ∧
    ((_refresh_token sampleProvider tokenResponse1 0).1).url =
      sampleProvider.token_endpoint := by
  refine ⟨(token_endpoint_discovery "https://dbc.cloud.databricks.com"
      sampleEndpoints okDiscoveryResponse "dbc.cloud.databricks.com" "client-id"
      "secret" none 0 okEnv).1,
    (token_endpoint_discovery "https://dbc.cloud.databricks.com" sampleEndpoints
      okDiscoveryResponse "dbc.cloud.databricks.com" "client-id" "secret" none 0
      okEnv).2.2.2.1 "https://dbc.cloud.databricks.com/oidc/oauth2/v2.0/token"
      rfl rfl rfl,
    (token_endpoint_discovery "https://dbc.cloud.databricks.com" sampleEndpoints
      okDiscoveryResponse "dbc.cloud.databricks.com" "client-id" "secret" none 0
      failedDiscoveryEnv).2.2.2.2.1 rfl rfl rfl sampleEndpoints .configLoadFailed
      rfl rfl,
    ((token_endpoint_discovery "https://dbc.cloud.databricks.com" sampleEndpoints
      okDiscoveryResponse "dbc.cloud.databricks.com" "client-id" "secret" none 0
      okEnv).2.2.2.2.2 sampleProvider 1 rfl).2.2 tokenResponse1 0⟩

/-- C8 (divergence): contrary to the canonical `https://host` form the
spec describes, `_normalize_hostname` strips the scheme from an input
that already carries one — on `https://host.example/` the source yields
`host.example`, which does not start with `https://` — while a
scheme-less input is normalized as specified. -/
theorem normalize_hostname_scheme_divergence :
    _normalize_hostname "https://host.example/" = "host.example" ∧
    strStartsWith (_normalize_hostname "https://host.example/") "https://" = false ∧
    _normalize_hostname "host.example" = "https://host.example" :=
  ⟨by decide, by decide, by decide⟩

/-- C10 counterexample: an empty iterator is an empty iterable, yet it
is truthy in `if scopes` at line 55, so the source keeps the empty scope
tuple instead of falling back to `("sql",)`, and (with the sample
identity scope mapping) the space-joined scope string of token requests
is then built from that empty user-supplied scope list: it is the empty
string. -/
theorem empty_iterator_scopes_no_fallback :
    scopes_truthy (.iterArg []) = true ∧
    scope_tuple_of_arg (.iterArg []) = [] ∧
    scope_tuple_of_arg (.iterArg []) ≠ DEFAULT_SCOPES ∧
    String.intercalate " "
      (sampleEndpoints.scopes_mapping (scope_tuple_of_arg (.iterArg []))) = "" :=
  ⟨rfl, rfl, by decide, rfl⟩

/-- C10 (amended): a falsy `scopes` argument — `None` or an empty
sequence, though not an always-truthy iterator — falls back to the
default scope tuple `("sql",)` before scope mapping; the line-55
embedding agrees with the `None`-or-sequence restriction `sp_init` is
stated over; a constructed provider stores the mapping of the effective
tuple; and every token request carries the space-joined stored scopes. -/
theorem scopes_fallback_only_for_falsy (s : ScopesArg)
    (h cid cs : String) (scopes : Option (List String)) (margin : Int)
    (env : InitEnv) :
    (scopes_truthy s = false → scope_tuple_of_arg s = DEFAULT_SCOPES) ∧
    (s = .noneArg ∨ s = .listArg [] → scope_tuple_of_arg s = DEFAULT_SCOPES) ∧
    DEFAULT_SCOPES = ["sql"] ∧
    effective_scopes none = scope_tuple_of_arg .noneArg ∧
    (∀ l, effective_scopes (some l) = scope_tuple_of_arg (.listArg l)) ∧
    (∀ p n, sp_init h cid cs scopes margin env = (.ok p, n) →
      ∃ ep', env.get_oauth_endpoints (_normalize_hostname h) = some ep' ∧
        p.scopes = ep'.scopes_mapping (effective_scopes scopes)) ∧
    (∀ p : Provider, ∀ tokResp now, ((_refresh_token p tokResp now).1).scope =
      String.intercalate " " p.scopes) := by
  refine ⟨fun hfalsy => ?_, fun hsc => ?_, rfl, rfl, fun l => ?_,
    fun p n hinit => ?_, fun p tokResp now => ?_⟩
  · simp [scope_tuple_of_arg, hfalsy]
  · rcases hsc with hsc | hsc <;> subst hsc <;> rfl
  · cases l with
    | nil => rfl
    | cons a as => simp [effective_scopes, scope_tuple_of_arg, scopes_truthy,
        scopes_tuple]
  · obtain ⟨_, ep', hep, _, hscopes⟩ :=
      sp_init_ok_shape h cid cs scopes margin env p n hinit
    exact ⟨ep', hep, hscopes⟩
  · rw [refresh_request_fields]

/-- Witness for the amended C10: the fallback at the falsy inputs `None`
and the empty list, agreement of the two line-55 embeddings on a
sequence input, the scopes a successful construction with
`scopes = None` stores, and the scope string of a concrete token
request. -/
theorem scopes_fallback_only_for_falsy_witness :
    scope_tuple_of_arg (.listArg []) = DEFAULT_SCOPES ∧
    scope_tuple_of_arg .noneArg = DEFAULT_SCOPES ∧
    effective_scopes (some ["custom"]) = scope_tuple_of_arg (.listArg ["custom"]) ∧
    sampleProvider.scopes = sampleEndpoints.scopes_mapping (effective_scopes none) ∧
    ((_refresh_token sampleProvider tokenResponse1 0).1).scope =
      String.intercalate " " sampleProvider.scopes := by
  refine ⟨(scopes_fallback_only_for_falsy (.listArg []) "dbc.cloud.databricks.com"
      "client-id" "secret" none 0 okEnv).1 rfl,
    (scopes_fallback_only_for_falsy .noneArg "dbc.cloud.databricks.com"
      "client-id" "secret" none 0 okEnv).2.1 (Or.inl rfl),
    (scopes_fallback_only_for_falsy .noneArg "dbc.cloud.databricks.com"
      "client-id" "secret" none 0 okEnv).2.2.2.2.1 ["custom"],
    ?_,
    (scopes_fallback_only_for_falsy .noneArg "dbc.cloud.databricks.com"
      "client-id" "secret" none 0 okEnv).2.2.2.2.2.2 sampleProvider
      tokenResponse1 0⟩
  obtain ⟨ep', hep, hscopes⟩ :=
    (scopes_fallback_only_for_falsy .noneArg "dbc.cloud.databricks.com"
      "client-id" "secret" none 0 okEnv).2.2.2.2.2.1 sampleProvider 1 rfl
  have hepeq : ep' = sampleEndpoints := Option.some.inj hep.symm
  rw [hscopes, hepeq]

end DatabricksServicePrincipal
